import Mathlib

/-!
Verification of the DXF chat editor backend (`app/main.py`).

The development shallowly embeds the backend: Python strings are `List Char`
with the relevant `str` operations (`split`, `replace`, `strip`, `in`,
`lower`, `endswith`) re-implemented faithfully; the FastAPI handlers become
pure functions on an explicit `ServerState`; calls into the `ezdxf` /
`anthropic` / `svglib` libraries and the Python `exec` primitive are
abstracted as function parameters, since their behaviour is external to this
repository.
-/

namespace Haklander

/-! ### Python string primitives -/

/-- Prefix test on character lists (`needle` is a prefix of `hay`). -/
def isPre : List Char → List Char → Bool
  | [], _ => true
  | _ :: _, [] => false
  | a :: l, b :: m => a == b && isPre l m

/-- Python `needle in hay` substring test: some suffix of `hay` starts with
`needle`. -/
def pyContains (needle : List Char) : List Char → Bool
  | [] => needle.isEmpty
  | c :: rest => isPre needle (c :: rest) || pyContains needle rest

/-- Fuelled worker for Python `str.split(sep)`: scan left to right, cutting
at each non-overlapping occurrence of `sep`.  `fuel` bounds the number of
scan steps; one character is consumed per step, so `fuel = s.length`
suffices. -/
def pysplitF (sep : List Char) : Nat → List Char → List (List Char)
  | 0, s => [s]
  | _ + 1, [] => [[]]
  | fuel + 1, c :: rest =>
    if !sep.isEmpty && isPre sep (c :: rest) then
      [] :: pysplitF sep fuel ((c :: rest).drop sep.length)
    else
      match pysplitF sep fuel rest with
      | [] => [[c]]
      | hd :: tl => (c :: hd) :: tl

/-- Python `s.split(sep)` for a non-empty separator. -/
def pysplit (sep s : List Char) : List (List Char) :=
  pysplitF sep s.length s

/-- Python `s.replace(old, new)` for a non-empty `old`
(`new.join(s.split(old))`). -/
def pyreplace (old new s : List Char) : List Char :=
  List.intercalate new (pysplit old s)

/-- Python whitespace for `str.strip()` (ASCII part). -/
def pyIsSpace (c : Char) : Bool :=
  c == ' ' || c == '\t' || c == '\n' || c == '\r' || c == '\x0b' || c == '\x0c'

/-- Python `s.strip()`: drop whitespace from both ends. -/
def pystrip (s : List Char) : List Char :=
  ((s.dropWhile pyIsSpace).reverse.dropWhile pyIsSpace).reverse

/-- ASCII lower-casing of one character (the fragment of Python `str.lower`
exercised by filenames). -/
def asciiLower (c : Char) : Char :=
  if 'A' ≤ c && c ≤ 'Z' then Char.ofNat (c.toNat + 32) else c

/-- Python `s.lower()` restricted to ASCII case mapping. -/
def pyLower (s : List Char) : List Char := s.map asciiLower

/-- Python `s.endswith(suf)`. -/
def pyEndsWith (suf s : List Char) : Bool :=
  isPre suf.reverse s.reverse

/-- No occurrence of `sep` starts anywhere inside `s`. -/
def cleanA (sep : List Char) : List Char → Bool
  | [] => true
  | c :: rest => !isPre sep (c :: rest) && cleanA sep rest

/-- No occurrence of `sep` starts inside `s`, even one that spills over into
an occurrence of `sep` written directly after `s`. -/
def cleanB (sep : List Char) : List Char → Bool
  | [] => true
  | c :: rest => !isPre sep ((c :: rest) ++ sep) && cleanB sep rest

/-! ### Lemmas about the string primitives -/

theorem isPre_self : ∀ l : List Char, isPre l l = true := by
  intro l
  induction l with
  | nil => rfl
  | cons a l ih => simp [isPre, ih]

theorem isPre_append_right : ∀ l m k : List Char,
    isPre l m = true → isPre l (m ++ k) = true := by
  intro l
  induction l with
  | nil => intro m k _; rfl
  | cons a l ih =>
    intro m k h
    cases m with
    | nil => simp [isPre] at h
    | cons b m =>
      simp only [isPre, Bool.and_eq_true] at h
      simp only [List.cons_append, isPre, Bool.and_eq_true]
      exact ⟨h.1, ih m k h.2⟩

theorem isPre_append_of_le : ∀ l A : List Char, ∀ B : List Char,
    l.length ≤ A.length → isPre l (A ++ B) = isPre l A := by
  intro l
  induction l with
  | nil => intro A B _; rfl
  | cons a l ih =>
    intro A B h
    cases A with
    | nil => simp at h
    | cons c A =>
      simp only [List.length_cons, Nat.succ_le_succ_iff] at h
      simp only [List.cons_append, isPre, List.append_eq]
      rw [ih A B h]

theorem isPre_trans : ∀ a b c : List Char,
    isPre a b = true → isPre b c = true → isPre a c = true := by
  intro a
  induction a with
  | nil => intro b c _ _; rfl
  | cons x a ih =>
    intro b c h1 h2
    cases b with
    | nil => simp [isPre] at h1
    | cons y b =>
      cases c with
      | nil => simp [isPre] at h2
      | cons z c =>
        simp only [isPre, Bool.and_eq_true, beq_iff_eq] at h1 h2 ⊢
        exact ⟨h1.1.trans h2.1, ih b c h1.2 h2.2⟩

theorem pyContains_nil_needle : ∀ s : List Char, pyContains [] s = true := by
  intro s
  cases s with
  | nil => rfl
  | cons c rest => simp [pyContains, isPre]

theorem pyContains_append_left : ∀ X Y n : List Char,
    pyContains n X = true → pyContains n (X ++ Y) = true := by
  intro X
  induction X with
  | nil =>
    intro Y n h
    simp only [pyContains, List.isEmpty_iff] at h
    subst h
    exact pyContains_nil_needle _
  | cons c X ih =>
    intro Y n h
    simp only [pyContains, Bool.or_eq_true] at h ⊢
    rcases h with h | h
    · exact Or.inl (isPre_append_right n (c :: X) Y h)
    · exact Or.inr (ih Y n h)

theorem pyContains_mid : ∀ X n R : List Char,
    pyContains n (X ++ (n ++ R)) = true := by
  intro X
  induction X with
  | nil =>
    intro n R
    cases n with
    | nil => exact pyContains_nil_needle _
    | cons a n =>
      simp only [List.nil_append, List.cons_append, pyContains, Bool.or_eq_true]
      exact Or.inl (isPre_append_right (a :: n) (a :: n) R (isPre_self _))
  | cons c X ih =>
    intro n R
    simp only [List.cons_append, pyContains, Bool.or_eq_true]
    exact Or.inr (ih n R)

theorem pyContains_eq_false : ∀ s n : List Char,
    n ≠ [] → cleanA n s = true → pyContains n s = false := by
  intro s
  induction s with
  | nil =>
    intro n hne _
    cases n with
    | nil => exact absurd rfl hne
    | cons a n => rfl
  | cons c rest ih =>
    intro n hne hc
    simp only [cleanA, Bool.and_eq_true, Bool.not_eq_eq_eq_not, Bool.not_true] at hc
    simp only [pyContains, Bool.or_eq_false_iff]
    exact ⟨hc.1, ih n hne hc.2⟩

theorem pyContains_of_isPre : ∀ s a b : List Char,
    isPre a b = true → pyContains b s = true → pyContains a s = true := by
  intro s
  induction s with
  | nil =>
    intro a b hab h
    simp only [pyContains, List.isEmpty_iff] at h
    subst h
    cases a with
    | nil => rfl
    | cons x a => simp [isPre] at hab
  | cons c rest ih =>
    intro a b hab h
    simp only [pyContains, Bool.or_eq_true] at h ⊢
    rcases h with h | h
    · exact Or.inl (isPre_trans a b (c :: rest) hab h)
    · exact Or.inr (ih a b hab h)

theorem drop_len_append : ∀ l m : List Char, (l ++ m).drop l.length = m := by
  intro l
  induction l with
  | nil => intro m; rfl
  | cons a l ih => intro m; exact ih m

theorem pysplitF_zero (sep s : List Char) : pysplitF sep 0 s = [s] := rfl

theorem pysplitF_nil (sep : List Char) (f : Nat) :
    pysplitF sep (f + 1) [] = [[]] := rfl

theorem pysplitF_cons (sep : List Char) (f : Nat) (c : Char) (rest : List Char) :
    pysplitF sep (f + 1) (c :: rest) =
      if !sep.isEmpty && isPre sep (c :: rest) then
        [] :: pysplitF sep f ((c :: rest).drop sep.length)
      else
        match pysplitF sep f rest with
        | [] => [[c]]
        | hd :: tl => (c :: hd) :: tl := rfl

theorem pysplitF_fuel_eq (sep : List Char) : ∀ f₁ : Nat, ∀ s : List Char, ∀ f₂ : Nat,
    s.length ≤ f₁ → s.length ≤ f₂ → pysplitF sep f₁ s = pysplitF sep f₂ s := by
  intro f₁
  induction f₁ with
  | zero =>
    intro s f₂ h₁ _
    have hs : s = [] := List.eq_nil_of_length_eq_zero (Nat.le_zero.mp h₁)
    subst hs
    cases f₂ with
    | zero => rfl
    | succ g => rfl
  | succ f ih =>
    intro s f₂ h₁ h₂
    cases s with
    | nil =>
      cases f₂ with
      | zero => rfl
      | succ g => rfl
    | cons c rest =>
      cases f₂ with
      | zero => simp at h₂
      | succ g =>
        rw [pysplitF_cons, pysplitF_cons]
        cases hcond : (!sep.isEmpty && isPre sep (c :: rest)) with
        | false =>
          simp only [Bool.false_eq_true, if_false]
          have hlen₁ : rest.length ≤ f := by simp at h₁; omega
          have hlen₂ : rest.length ≤ g := by simp at h₂; omega
          rw [ih rest g hlen₁ hlen₂]
        | true =>
          simp only [if_true]
          have hsep : sep ≠ [] := by
            intro h
            subst h
            simp [isPre] at hcond
          have hseplen : 1 ≤ sep.length := by
            cases sep with
            | nil => exact absurd rfl hsep
            | cons a l => simp
          have hdrop : ((c :: rest).drop sep.length).length ≤ f := by
            simp only [List.length_drop, List.length_cons]
            simp only [List.length_cons] at h₁
            omega
          have hdrop₂ : ((c :: rest).drop sep.length).length ≤ g := by
            simp only [List.length_drop, List.length_cons]
            simp only [List.length_cons] at h₂
            omega
          rw [ih ((c :: rest).drop sep.length) g hdrop hdrop₂]

theorem pysplitF_clean (sep : List Char) : ∀ s : List Char, ∀ fuel : Nat,
    s.length ≤ fuel → cleanA sep s = true → pysplitF sep fuel s = [s] := by
  intro s
  induction s with
  | nil =>
    intro fuel _ _
    cases fuel with
    | zero => rfl
    | succ f => rfl
  | cons c rest ih =>
    intro fuel hf hc
    cases fuel with
    | zero => simp at hf
    | succ f =>
      simp only [cleanA, Bool.and_eq_true, Bool.not_eq_eq_eq_not, Bool.not_true] at hc
      rw [pysplitF_cons]
      have hcond : (!sep.isEmpty && isPre sep (c :: rest)) = false := by
        simp [hc.1]
      simp only [hcond, Bool.false_eq_true, if_false]
      have hlen : rest.length ≤ f := by simp at hf; omega
      rw [ih f hlen hc.2]

theorem pysplit_clean (sep s : List Char) (hc : cleanA sep s = true) :
    pysplit sep s = [s] :=
  pysplitF_clean sep s s.length (Nat.le_refl _) hc

theorem pysplitF_boundary (sep : List Char) (hne : sep ≠ []) :
    ∀ X : List Char, ∀ fuel : Nat, ∀ R : List Char,
    (X ++ sep ++ R).length ≤ fuel → cleanB sep X = true →
    pysplitF sep fuel (X ++ sep ++ R) = X :: pysplit sep R := by
  intro X
  induction X with
  | nil =>
    intro fuel R hf _
    cases sep with
    | nil => exact absurd rfl hne
    | cons a sep2 =>
      simp only [List.nil_append] at hf ⊢
      cases fuel with
      | zero => simp at hf
      | succ f =>
        have hshape : (a :: sep2) ++ R = a :: (sep2 ++ R) := rfl
        rw [hshape, pysplitF_cons]
        have hcond : (!(a :: sep2).isEmpty && isPre (a :: sep2) (a :: (sep2 ++ R))) = true := by
          have := isPre_append_right (a :: sep2) (a :: sep2) R (isPre_self _)
          simp only [List.cons_append] at this
          simp [this]
        simp only [hcond, if_true]
        have hdrop : (a :: (sep2 ++ R)).drop (a :: sep2).length = R := by
          simp only [List.length_cons, List.drop_succ_cons]
          exact drop_len_append sep2 R
        rw [hdrop]
        have hlen : R.length ≤ f := by
          simp only [List.cons_append, List.length_cons, List.length_append] at hf
          omega
        exact congrArg (List.cons []) (pysplitF_fuel_eq (a :: sep2) f R R.length hlen (Nat.le_refl _))
  | cons c X ih =>
    intro fuel R hf hc
    cases fuel with
    | zero => simp at hf
    | succ f =>
      simp only [cleanB, Bool.and_eq_true, Bool.not_eq_eq_eq_not, Bool.not_true] at hc
      have hshape : (c :: X) ++ sep ++ R = c :: (X ++ sep ++ R) := by simp
      rw [hshape, pysplitF_cons]
      have hpre : isPre sep (c :: (X ++ sep ++ R)) = false := by
        have hassoc : c :: (X ++ sep ++ R) = ((c :: X) ++ sep) ++ R := by simp
        rw [hassoc, isPre_append_of_le sep ((c :: X) ++ sep) R
          (by simp only [List.length_append, List.length_cons]; omega)]
        exact hc.1
      have hcond : (!sep.isEmpty && isPre sep (c :: (X ++ sep ++ R))) = false := by
        rw [hpre, Bool.and_false]
      simp only [hcond, Bool.false_eq_true, if_false]
      have hlen : (X ++ sep ++ R).length ≤ f := by
        simp only [List.cons_append, List.length_cons] at hf
        simpa using Nat.le_of_succ_le_succ hf
      rw [ih f R hlen hc.2]

theorem pysplit_boundary (sep X R : List Char) (hne : sep ≠ [])
    (hc : cleanB sep X = true) :
    pysplit sep (X ++ sep ++ R) = X :: pysplit sep R :=
  pysplitF_boundary sep hne X (X ++ sep ++ R).length R (Nat.le_refl _) hc

/-! ### The response parser of `generate_ezdxf_code` (main.py lines 134-157) -/

/-- The marker `"EXPLANATION:"`. -/
def EM : List Char := "EXPLANATION:".data

/-- The marker `"CODE:"`. -/
def CM : List Char := "CODE:".data

/-- The fence `"```python"`. -/
def PY : List Char := "```python".data

/-- The fence `"```"`. -/
def TK : List Char := "```".data

/-- The parsing of the model response into `(explanation, code)` performed by
`generate_ezdxf_code` after the API call (main.py lines 134-157), transcribed
statement by statement. -/
def parse_response (text : List Char) : List Char × List Char :=
  if pyContains EM text then
    let parts := pysplit CM text
    let explanation := pystrip (pyreplace EM [] (parts.headD []))
    let code :=
      if 1 < parts.length then
        let code_part := parts.getD 1 []
        if pyContains PY code_part then
          pystrip (((pysplit TK ((pysplit PY code_part).getD 1 [])).headD []))
        else if pyContains TK code_part then
          pystrip (((pysplit TK ((pysplit TK code_part).getD 1 [])).headD []))
        else pystrip code_part
      else []
    (explanation, code)
  else
    let code :=
      if pyContains PY text then
        pystrip (((pysplit TK ((pysplit PY text).getD 1 [])).headD []))
      else if pyContains TK text then
        pystrip (((pysplit TK ((pysplit TK text).getD 1 [])).headD []))
      else []
    ("Executing requested changes.".data, code)

/-! ### Data model

The `ezdxf` document is abstracted to the parts this backend observes: a list
of layers and the list of modelspace entities (the backend only queries layer
names, layer colors and per-layer entity counts).  `Doc.id` models the object
identity of the in-memory document handle; Python code executed by `exec`
mutates the document in place and therefore can change its content but never
its identity. -/

/-- A modelspace entity, abstracted to the attribute the backend reads. -/
structure Entity where
  layer : String
deriving DecidableEq, Repr

/-- A layer of the document. -/
structure Layer where
  name : String
  color : Int
deriving DecidableEq, Repr

/-- The mutable content of an `ezdxf` document. -/
structure DocContent where
  layers : List Layer
  modelspace : List Entity
deriving DecidableEq, Repr

/-- An in-memory `ezdxf` document handle: object identity plus content. -/
structure Doc where
  id : Nat
  content : DocContent
deriving DecidableEq, Repr

/-- A Python value bound in the namespace handed to `exec`. -/
inductive PyVal where
  | pyDoc (d : Doc)
  | pyModule (name : String)
deriving DecidableEq, Repr

/-- The `exec_globals` dictionary built by `execute_ezdxf_code`
(main.py lines 163-166): exactly `doc` and `ezdxf`. -/
def exec_globals (d : Doc) : List (String × PyVal) :=
  [("doc", PyVal.pyDoc d), ("ezdxf", PyVal.pyModule "ezdxf")]

/-- The outcome of `exec(code, exec_globals, exec_locals)`: an optional
exception message, and the content of the bound document afterwards (the
document is mutated in place, so on an exception the partial mutations are
kept). -/
abbrev ExecFn := String → List (String × PyVal) → Option String × DocContent

/-- One entry of the list returned by `get_layers_info`. -/
structure LayerInfo where
  name : String
  color : Int
  entity_count : Nat
deriving DecidableEq, Repr

/-- `get_layers_info` (main.py lines 76-86): for each layer, its name, color
and the number of modelspace entities on it. -/
def get_layers_info (d : DocContent) : List LayerInfo :=
  d.layers.map fun l =>
    { name := l.name
      color := l.color
      entity_count := (d.modelspace.filter fun e => e.layer == l.name).length }

/-- The global server state (main.py lines 33-36): the current document, the
current filename, and the files written under `temp_dir` (modelled so that
reads and writes of the temporary directory are explicit). -/
structure ServerState where
  current_doc : Option Doc
  current_filename : String
  disk : List (String × String)
deriving DecidableEq

/-- The state at process start: no document, empty filename. -/
def initial_state : ServerState :=
  { current_doc := none, current_filename := "", disk := [] }

/-- Writing a file into the temporary directory (overwrite semantics). -/
def writeFile (disk : List (String × String)) (name content : String) :
    List (String × String) :=
  (name, content) :: disk.filter fun p => p.1 != name

/-- An HTTPException raised by a handler. -/
structure HTTPError where
  status : Nat
  detail : String
deriving DecidableEq, Repr

/-- An uploaded file: `filename` and the bytes returned by `file.read()`. -/
structure FileUpload where
  filename : String
  content : String
deriving DecidableEq, Repr

/-- The JSON body returned by a successful `POST /api/upload`. -/
structure UploadResponse where
  success : Bool
  filename : String
  svg : String
  layers : List LayerInfo
deriving DecidableEq, Repr

/-- The response of `GET /api/svg`: body and media type. -/
structure SvgResponse where
  content : String
  media_type : String
deriving DecidableEq, Repr

/-- The `ChatResponse` model (main.py lines 43-48). -/
structure ChatResponse where
  response : String
  code : String
  executed : Bool
  result : String
  svg_updated : Bool
deriving DecidableEq, Repr

/-- A `FileResponse`: the filename offered for download and its media type. -/
structure FileResponsePayload where
  filename : String
  media_type : String
deriving DecidableEq, Repr

/-! ### The operations -/

/-- `file.filename.lower().endswith(".dxf")` (main.py line 205). -/
def isDxfName (name : String) : Bool :=
  pyEndsWith ".dxf".data (pyLower name.data)

/-- `generate_ezdxf_code` (main.py lines 89-157).  The Anthropic API call is
abstracted as `llm`, a function from the layer information and the user
message to the response text; the rest is `parse_response`. -/
def generate_ezdxf_code (llm : List LayerInfo → String → String)
    (user_message : String) (layers_info : List LayerInfo) : String × String :=
  let pr := parse_response (llm layers_info user_message).data
  (String.mk pr.1, String.mk pr.2)

/-- `execute_ezdxf_code` (main.py lines 160-188).  `execPy` is the Python
`exec` primitive, `tb` the text produced by `traceback.format_exc()`.  The
result is `.error (message, content)` when `exec` raised (the `RuntimeError`
message together with the partially mutated document content) and
`.ok (result, content)` on success. -/
def execute_ezdxf_code (execPy : ExecFn) (tb : String) (code : String)
    (d : Doc) : Except (String × DocContent) (String × DocContent) :=
  let g := exec_globals d
  let count_before := d.content.modelspace.length
  match execPy code g with
  | (some e, post) =>
    .error ("Code execution failed: " ++ e ++ "\n" ++ tb, post)
  | (none, post) =>
    let count_after := post.modelspace.length
    let diff : Int := (count_after : Int) - (count_before : Int)
    if diff < 0 then .ok (toString diff.natAbs ++ " element(s) removed", post)
    else if 0 < diff then .ok (toString diff.natAbs ++ " element(s) added", post)
    else .ok ("Changes applied successfully", post)

/-- `POST /api/upload` (main.py lines 200-234).  `readDxf` abstracts
`ezdxf.readfile` applied to the just-written temporary file, `dxf_to_svg`
abstracts the SVG rendering; either may raise. -/
def upload_dxf (readDxf : String → Except String Doc)
    (dxf_to_svg : Doc → Except String String)
    (file : FileUpload) (st : ServerState) :
    Except HTTPError UploadResponse × ServerState :=
  if isDxfName file.filename then
    let st1 := { st with disk := writeFile st.disk file.filename file.content }
    match readDxf file.content with
    | .error e => (.error ⟨500, "Failed to process DXF: " ++ e⟩, st1)
    | .ok d =>
      let st2 := { st1 with current_doc := some d, current_filename := file.filename }
      match dxf_to_svg d with
      | .error e => (.error ⟨500, "Failed to process DXF: " ++ e⟩, st2)
      | .ok svg =>
        (.ok { success := true, filename := file.filename, svg := svg,
               layers := get_layers_info d.content }, st2)
  else
    (.error ⟨400, "File must be a DXF file"⟩, st)

/-- `GET /api/svg` (main.py lines 237-246). -/
def get_svg (dxf_to_svg : Doc → Except String String) (st : ServerState) :
    Except HTTPError SvgResponse × ServerState :=
  match st.current_doc with
  | none => (.error ⟨404, "No DXF file loaded"⟩, st)
  | some d =>
    match dxf_to_svg d with
    | .error e => (.error ⟨500, e⟩, st)
    | .ok svg => (.ok { content := svg, media_type := "image/svg+xml" }, st)

/-- `GET /api/layers` (main.py lines 249-257). -/
def get_layers (st : ServerState) :
    Except HTTPError (List LayerInfo) × ServerState :=
  match st.current_doc with
  | none => (.error ⟨404, "No DXF file loaded"⟩, st)
  | some d => (.ok (get_layers_info d.content), st)

/-- `POST /api/chat` (main.py lines 260-304).  The RuntimeError raised by
`execute_ezdxf_code` is caught and turned into a `ChatResponse` with
`executed = False`; either way the in-place mutations of the document
performed by the executed code are kept. -/
def chat (llm : List LayerInfo → String → String) (execPy : ExecFn)
    (tb : String) (message : String) (st : ServerState) :
    Except HTTPError ChatResponse × ServerState :=
  match st.current_doc with
  | none => (.error ⟨400, "No DXF file loaded. Please upload a file first."⟩, st)
  | some d =>
    let layers := get_layers_info d.content
    let pr := generate_ezdxf_code llm message layers
    let explanation := pr.1
    let code := pr.2
    if code = "" then
      (.ok { response := if explanation = "" then
               "I couldn\x27t generate code for that request. Please try rephrasing."
             else explanation,
             code := "", executed := false, result := "", svg_updated := false }, st)
    else
      match execute_ezdxf_code execPy tb code d with
      | .ok (result, post) =>
        (.ok { response := explanation, code := code, executed := true,
               result := result, svg_updated := true },
         { st with current_doc := some { d with content := post } })
      | .error (emsg, post) =>
        (.ok { response := "Error executing code: " ++ emsg, code := code,
               executed := false, result := emsg, svg_updated := false },
         { st with current_doc := some { d with content := post } })

/-- `GET /api/export/dxf` (main.py lines 307-324).  `saveDxf` abstracts
`doc.saveas`, producing the bytes written to the temporary directory. -/
def export_dxf (saveDxf : Doc → String) (st : ServerState) :
    Except HTTPError FileResponsePayload × ServerState :=
  match st.current_doc with
  | none => (.error ⟨404, "No DXF file loaded"⟩, st)
  | some d =>
    let export_name :=
      String.mk (pyreplace ".dxf".data "_edited.dxf".data st.current_filename.data)
    (.ok { filename := export_name, media_type := "application/dxf" },
     { st with disk := writeFile st.disk export_name (saveDxf d) })

/-- `GET /api/export/pdf` (main.py lines 327-371).  `renderColorSvg`
abstracts the inline SVG rendering with the PDF configuration, `svg2rlg` the
SVG parser (returning `none` when it fails), `renderPDF` the PDF backend. -/
def export_pdf (renderColorSvg : Doc → String) (svg2rlg : String → Option String)
    (renderPDF : String → String) (st : ServerState) :
    Except HTTPError FileResponsePayload × ServerState :=
  match st.current_doc with
  | none => (.error ⟨404, "No DXF file loaded"⟩, st)
  | some d =>
    let svg_string := renderColorSvg d
    let st1 := { st with disk := writeFile st.disk "temp.svg" svg_string }
    match svg2rlg svg_string with
    | none => (.error ⟨500, "Failed to parse SVG for PDF export"⟩, st1)
    | some drawing =>
      let export_name :=
        String.mk (pyreplace ".dxf".data ".pdf".data st1.current_filename.data)
      (.ok { filename := export_name, media_type := "application/pdf" },
       { st1 with disk := writeFile st1.disk export_name (renderPDF drawing) })

/-- The external functions every request dispatch depends on. -/
structure Libs where
  readDxf : String → Except String Doc
  dxf_to_svg : Doc → Except String String
  llm : List LayerInfo → String → String
  execPy : ExecFn
  tb : String
  saveDxf : Doc → String
  renderColorSvg : Doc → String
  svg2rlg : String → Option String
  renderPDF : String → String

/-- A request to one of the API endpoints. -/
inductive Request where
  | upload (file : FileUpload)
  | chatMsg (message : String)
  | svg
  | layers
  | exportDxf
  | exportPdf

/-- The state transition of one request. -/
def step (L : Libs) (st : ServerState) : Request → ServerState
  | .upload f => (upload_dxf L.readDxf L.dxf_to_svg f st).2
  | .chatMsg m => (chat L.llm L.execPy L.tb m st).2
  | .svg => (get_svg L.dxf_to_svg st).2
  | .layers => (get_layers st).2
  | .exportDxf => (export_dxf L.saveDxf st).2
  | .exportPdf => (export_pdf L.renderColorSvg L.svg2rlg L.renderPDF st).2

/-- Number of loaded documents in a state. -/
def docCount (st : ServerState) : Nat :=
  match st.current_doc with
  | none => 0
  | some _ => 1

/-- The in-process-memory part of the state. -/
def memPart (st : ServerState) : Option Doc × String :=
  (st.current_doc, st.current_filename)

/-! ### Sample values used by the witnesses -/

/-- A sample layer list. -/
def wLayers : List Layer := [{ name := "WALLS", color := 7 }]

/-- A sample document content with two entities. -/
def wContent : DocContent :=
  { layers := wLayers, modelspace := [{ layer := "WALLS" }, { layer := "WALLS" }] }

/-- The sample content with the modelspace emptied. -/
def wContent0 : DocContent := { layers := wLayers, modelspace := [] }

/-- A sample loaded document. -/
def wDoc : Doc := { id := 0, content := wContent }

/-- A sample state with `wDoc` loaded. -/
def wState : ServerState :=
  { current_doc := some wDoc, current_filename := "plan.dxf", disk := [] }

/-- A sample renderer that always succeeds. -/
def wRender : Doc → Except String String := fun _ => .ok "<svg></svg>"

/-- A sample DXF reader that always yields `wDoc`. -/
def wReadDxf : String → Except String Doc := fun _ => .ok wDoc

/-- A sample model response for the chat pipeline. -/
def wLlm : List LayerInfo → String → String := fun _ _ =>
  "EXPLANATION: Remove all entities.\nCODE:\n```python\nfor e in list(msp):\n    msp.delete_entity(e)\n```"

/-- The code block inside the `wLlm` response. -/
def wCode : String := "for e in list(msp):\n    msp.delete_entity(e)"

/-- A sample `exec` that empties the modelspace and succeeds. -/
def wExecOk : ExecFn := fun _ _ => (none, wContent0)

/-- A sample `exec` that raises, leaving the content unchanged. -/
def wExecRaise : ExecFn := fun _ _ => (some "division by zero", wContent)

/-! ### The claims -/

/-- Claim C4: in every reachable state of the server, at most one document is
loaded: the global state is `current_doc` (`none` or a single handle) paired
with `current_filename`, and no sequence of requests starting from the
initial state can leave more than one document loaded. -/
theorem c4_single_document_invariant (L : Libs) (reqs : List Request) :
    docCount (reqs.foldl (step L) initial_state) ≤ 1 := by
  have h : ∀ st : ServerState, docCount st ≤ 1 := by
    intro st
    unfold docCount
    cases st.current_doc <;> simp
  exact h _

/-- Claim C8: `POST /api/upload` rejects every file whose lower-cased
filename does not end in `".dxf"` with HTTP 400 and detail
`"File must be a DXF file"`, before reading the file content: the entire
state (document, filename, and temporary directory) is unchanged, and the
outcome is the same for every file content. -/
theorem c8_upload_rejects_non_dxf (readDxf : String → Except String Doc)
    (render : Doc → Except String String) (f : FileUpload) (st : ServerState)
    (hbad : isDxfName f.filename = false) :
    upload_dxf readDxf render f st = (.error ⟨400, "File must be a DXF file"⟩, st)
    ∧ ∀ c : String,
        upload_dxf readDxf render { filename := f.filename, content := c } st
          = (.error ⟨400, "File must be a DXF file"⟩, st) := by
  constructor
  · simp [upload_dxf, hbad]
  · intro c
    simp [upload_dxf, hbad]

/-- Claim C8 witness at a concrete bad filename. -/
theorem c8_upload_rejects_non_dxf_witness :
    upload_dxf wReadDxf wRender { filename := "plan.txt", content := "0" } wState
      = (.error ⟨400, "File must be a DXF file"⟩, wState)
    ∧ ∀ c : String,
        upload_dxf wReadDxf wRender { filename := "plan.txt", content := c } wState
          = (.error ⟨400, "File must be a DXF file"⟩, wState) :=
  c8_upload_rejects_non_dxf wReadDxf wRender
    { filename := "plan.txt", content := "0" } wState (by decide)

/-- Claim C9: when the executed snippet raises no exception, the result
string of `execute_ezdxf_code` is determined solely by the change in the
modelspace entity count: `"N element(s) removed"` on a decrease by `N`,
`"N element(s) added"` on an increase by `N`, and
`"Changes applied successfully"` when the count is unchanged; two successful
executions with the same before and after counts report the same string. -/
theorem c9_execute_result_message (execPy : ExecFn) (tb code : String) (d : Doc)
    (post : DocContent) (hexec : execPy code (exec_globals d) = (none, post)) :
    execute_ezdxf_code execPy tb code d =
      .ok ((if post.modelspace.length < d.content.modelspace.length then
              toString (d.content.modelspace.length - post.modelspace.length)
                ++ " element(s) removed"
            else if d.content.modelspace.length < post.modelspace.length then
              toString (post.modelspace.length - d.content.modelspace.length)
                ++ " element(s) added"
            else "Changes applied successfully"), post)
    ∧ (post.modelspace.length = d.content.modelspace.length →
        execute_ezdxf_code execPy tb code d = .ok ("Changes applied successfully", post))
    ∧ (∀ (execPy₂ : ExecFn) (tb₂ code₂ : String) (d₂ : Doc) (post₂ : DocContent),
        execPy₂ code₂ (exec_globals d₂) = (none, post₂) →
        d₂.content.modelspace.length = d.content.modelspace.length →
        post₂.modelspace.length = post.modelspace.length →
        ∃ r : String, execute_ezdxf_code execPy tb code d = .ok (r, post)
          ∧ execute_ezdxf_code execPy₂ tb₂ code₂ d₂ = .ok (r, post₂)) := by
  have main : ∀ (ePy : ExecFn) (t c : String) (dd : Doc) (p : DocContent),
      ePy c (exec_globals dd) = (none, p) →
      execute_ezdxf_code ePy t c dd =
        .ok ((if p.modelspace.length < dd.content.modelspace.length then
                toString (dd.content.modelspace.length - p.modelspace.length)
                  ++ " element(s) removed"
              else if dd.content.modelspace.length < p.modelspace.length then
                toString (p.modelspace.length - dd.content.modelspace.length)
                  ++ " element(s) added"
              else "Changes applied successfully"), p) := by
    intro ePy t c dd p h
    simp only [execute_ezdxf_code, h]
    by_cases h1 : p.modelspace.length < dd.content.modelspace.length
    · have hc : ((p.modelspace.length : Int) - (dd.content.modelspace.length : Int) < 0) := by
        omega
      have habs : ((p.modelspace.length : Int) - (dd.content.modelspace.length : Int)).natAbs
          = dd.content.modelspace.length - p.modelspace.length := by omega
      rw [if_pos hc, if_pos h1, habs]
    · have hc : ¬ ((p.modelspace.length : Int) - (dd.content.modelspace.length : Int) < 0) := by
        omega
      rw [if_neg hc, if_neg h1]
      by_cases h2 : dd.content.modelspace.length < p.modelspace.length
      · have hc2 : (0 < (p.modelspace.length : Int) - (dd.content.modelspace.length : Int)) := by
          omega
        have habs : ((p.modelspace.length : Int) - (dd.content.modelspace.length : Int)).natAbs
            = p.modelspace.length - dd.content.modelspace.length := by omega
        rw [if_pos hc2, if_pos h2, habs]
      · have hc2 : ¬ (0 < (p.modelspace.length : Int) - (dd.content.modelspace.length : Int)) := by
          omega
        rw [if_neg hc2, if_neg h2]
  refine ⟨main execPy tb code d post hexec, ?_, ?_⟩
  · intro heq
    rw [main execPy tb code d post hexec, heq]
    simp
  · intro execPy₂ tb₂ code₂ d₂ post₂ hexec₂ hbefore hafter
    refine ⟨_, main execPy tb code d post hexec, ?_⟩
    rw [main execPy₂ tb₂ code₂ d₂ post₂ hexec₂, hbefore, hafter]

/-- Claim C9 witness: removing both entities reports
`"2 element(s) removed"`. -/
theorem c9_execute_result_message_witness :
    execute_ezdxf_code wExecOk "" "code" wDoc =
      .ok ((if wContent0.modelspace.length < wDoc.content.modelspace.length then
              toString (wDoc.content.modelspace.length - wContent0.modelspace.length)
                ++ " element(s) removed"
            else if wDoc.content.modelspace.length < wContent0.modelspace.length then
              toString (wContent0.modelspace.length - wDoc.content.modelspace.length)
                ++ " element(s) added"
            else "Changes applied successfully"), wContent0)
    ∧ (wContent0.modelspace.length = wDoc.content.modelspace.length →
        execute_ezdxf_code wExecOk "" "code" wDoc
          = .ok ("Changes applied successfully", wContent0))
    ∧ (∀ (execPy₂ : ExecFn) (tb₂ code₂ : String) (d₂ : Doc) (post₂ : DocContent),
        execPy₂ code₂ (exec_globals d₂) = (none, post₂) →
        d₂.content.modelspace.length = wDoc.content.modelspace.length →
        post₂.modelspace.length = wContent0.modelspace.length →
        ∃ r : String, execute_ezdxf_code wExecOk "" "code" wDoc = .ok (r, wContent0)
          ∧ execute_ezdxf_code execPy₂ tb₂ code₂ d₂ = .ok (r, post₂)) :=
  c9_execute_result_message wExecOk "" "code" wDoc wContent0 rfl

/-- Claim C10: with no document loaded, `GET /api/svg`, `GET /api/layers`,
`GET /api/export/dxf` and `GET /api/export/pdf` fail with HTTP 404 and
`POST /api/chat` fails with HTTP 400, in each case leaving the state
unchanged. -/
theorem c10_no_document_errors (render : Doc → Except String String)
    (saveDxf : Doc → String) (rcs : Doc → String) (s2r : String → Option String)
    (rp : String → String) (llm : List LayerInfo → String → String)
    (execPy : ExecFn) (tb m : String) (st : ServerState)
    (hnone : st.current_doc = none) :
    get_svg render st = (.error ⟨404, "No DXF file loaded"⟩, st)
    ∧ get_layers st = (.error ⟨404, "No DXF file loaded"⟩, st)
    ∧ export_dxf saveDxf st = (.error ⟨404, "No DXF file loaded"⟩, st)
    ∧ export_pdf rcs s2r rp st = (.error ⟨404, "No DXF file loaded"⟩, st)
    ∧ chat llm execPy tb m st
        = (.error ⟨400, "No DXF file loaded. Please upload a file first."⟩, st) := by
  refine ⟨?_, ?_, ?_, ?_, ?_⟩
  · simp [get_svg, hnone]
  · simp [get_layers, hnone]
  · simp [export_dxf, hnone]
  · simp [export_pdf, hnone]
  · simp [chat, hnone]

/-- Claim C10 witness at the initial state. -/
theorem c10_no_document_errors_witness :
    get_svg wRender initial_state = (.error ⟨404, "No DXF file loaded"⟩, initial_state)
    ∧ get_layers initial_state = (.error ⟨404, "No DXF file loaded"⟩, initial_state)
    ∧ export_dxf (fun _ => "") initial_state
        = (.error ⟨404, "No DXF file loaded"⟩, initial_state)
    ∧ export_pdf (fun _ => "") (fun _ => none) (fun _ => "") initial_state
        = (.error ⟨404, "No DXF file loaded"⟩, initial_state)
    ∧ chat wLlm wExecOk "" "hi" initial_state
        = (.error ⟨400, "No DXF file loaded. Please upload a file first."⟩, initial_state) :=
  c10_no_document_errors wRender (fun _ => "") (fun _ => "") (fun _ => none)
    (fun _ => "") wLlm wExecOk "" "hi" initial_state rfl

/-- Claim C5: with a document loaded, `GET /api/svg` returns exactly
`dxf_to_svg current_doc` with media type `image/svg+xml` and leaves the state
unchanged; its response is a function of `current_doc` alone (no cached
rendering exists anywhere in the state), so after a chat mutation it renders
the mutated document. -/
theorem c5_get_svg_fresh_render (dxf_to_svg : Doc → Except String String)
    (st : ServerState) (d : Doc) (svg : String)
    (hdoc : st.current_doc = some d) (hsvg : dxf_to_svg d = .ok svg) :
    get_svg dxf_to_svg st = (.ok { content := svg, media_type := "image/svg+xml" }, st)
    ∧ (∀ st₁ st₂ : ServerState, st₁.current_doc = st₂.current_doc →
        (get_svg dxf_to_svg st₁).1 = (get_svg dxf_to_svg st₂).1)
    ∧ (∀ (llm : List LayerInfo → String → String) (execPy : ExecFn) (tb m : String)
        (d₂ : Doc) (svg₂ : String),
        (chat llm execPy tb m st).2.current_doc = some d₂ →
        dxf_to_svg d₂ = .ok svg₂ →
        get_svg dxf_to_svg (chat llm execPy tb m st).2
          = (.ok { content := svg₂, media_type := "image/svg+xml" },
             (chat llm execPy tb m st).2)) := by
  refine ⟨?_, ?_, ?_⟩
  · simp [get_svg, hdoc, hsvg]
  · intro st₁ st₂ h
    cases hc : st₂.current_doc with
    | none => simp [get_svg, h, hc]
    | some d₂ =>
      cases hr : dxf_to_svg d₂ with
      | error e => simp [get_svg, h, hc, hr]
      | ok s => simp [get_svg, h, hc, hr]
  · intro llm execPy tb m d₂ svg₂ h2 hs2
    simp [get_svg, h2, hs2]

/-- Claim C5 witness: rendering the sample state, and rendering again after a
chat request that empties the modelspace. -/
theorem c5_get_svg_fresh_render_witness :
    get_svg wRender wState
      = (.ok { content := "<svg></svg>", media_type := "image/svg+xml" }, wState)
    ∧ (∀ st₁ st₂ : ServerState, st₁.current_doc = st₂.current_doc →
        (get_svg wRender st₁).1 = (get_svg wRender st₂).1)
    ∧ (∀ (llm : List LayerInfo → String → String) (execPy : ExecFn) (tb m : String)
        (d₂ : Doc) (svg₂ : String),
        (chat llm execPy tb m wState).2.current_doc = some d₂ →
        wRender d₂ = .ok svg₂ →
        get_svg wRender (chat llm execPy tb m wState).2
          = (.ok { content := svg₂, media_type := "image/svg+xml" },
             (chat llm execPy tb m wState).2)) :=
  c5_get_svg_fresh_render wRender wState wDoc "<svg></svg>" rfl rfl

/-- Claim C6: for an upload whose filename passes the `.dxf` check and whose
content loads and renders, `POST /api/upload` stores the new document and
filename and returns `success = true` with the filename, the fresh rendering
and the layer information; when loading or rendering raises, it responds with
HTTP 500. -/
theorem c6_upload_success (readDxf : String → Except String Doc)
    (dxf_to_svg : Doc → Except String String) (f : FileUpload) (st : ServerState)
    (d : Doc) (svg : String)
    (hname : isDxfName f.filename = true)
    (hread : readDxf f.content = .ok d)
    (hsvg : dxf_to_svg d = .ok svg) :
    upload_dxf readDxf dxf_to_svg f st
      = (.ok { success := true, filename := f.filename, svg := svg,
               layers := get_layers_info d.content },
         { st with current_doc := some d, current_filename := f.filename,
                   disk := writeFile st.disk f.filename f.content })
    ∧ (∀ (readDxf₂ : String → Except String Doc) (e : String),
        readDxf₂ f.content = .error e →
        (upload_dxf readDxf₂ dxf_to_svg f st).1
          = .error ⟨500, "Failed to process DXF: " ++ e⟩)
    ∧ (∀ (render₂ : Doc → Except String String) (e : String),
        render₂ d = .error e →
        (upload_dxf readDxf render₂ f st).1
          = .error ⟨500, "Failed to process DXF: " ++ e⟩) := by
  refine ⟨?_, ?_, ?_⟩
  · simp [upload_dxf, hname, hread, hsvg]
  · intro readDxf₂ e h
    simp [upload_dxf, hname, h]
  · intro render₂ e h
    simp [upload_dxf, hname, hread, h]

/-- Claim C6 witness with the sample reader and renderer. -/
theorem c6_upload_success_witness :
    upload_dxf wReadDxf wRender { filename := "plan.dxf", content := "bytes" } wState
      = (.ok { success := true, filename := "plan.dxf", svg := "<svg></svg>",
               layers := get_layers_info wDoc.content },
         { wState with current_doc := some wDoc, current_filename := "plan.dxf",
                       disk := writeFile wState.disk "plan.dxf" "bytes" })
    ∧ (∀ (readDxf₂ : String → Except String Doc) (e : String),
        readDxf₂ "bytes" = .error e →
        (upload_dxf readDxf₂ wRender { filename := "plan.dxf", content := "bytes" } wState).1
          = .error ⟨500, "Failed to process DXF: " ++ e⟩)
    ∧ (∀ (render₂ : Doc → Except String String) (e : String),
        render₂ wDoc = .error e →
        (upload_dxf wReadDxf render₂ { filename := "plan.dxf", content := "bytes" } wState).1
          = .error ⟨500, "Failed to process DXF: " ++ e⟩) :=
  c6_upload_success wReadDxf wRender { filename := "plan.dxf", content := "bytes" }
    wState wDoc "<svg></svg>" (by decide) rfl rfl

/-- Claim C7: a second upload arriving after a first one silently overwrites
it: the final state holds the second document and filename, and both requests
receive a plain success response with no error or warning. -/
theorem c7_concurrent_upload_overwrite
    (readDxf : String → Except String Doc) (dxf_to_svg : Doc → Except String String)
    (f₁ f₂ : FileUpload) (st : ServerState) (d₁ d₂ : Doc) (svg₁ svg₂ : String)
    (hn₁ : isDxfName f₁.filename = true) (hn₂ : isDxfName f₂.filename = true)
    (hr₁ : readDxf f₁.content = .ok d₁) (hr₂ : readDxf f₂.content = .ok d₂)
    (hv₁ : dxf_to_svg d₁ = .ok svg₁) (hv₂ : dxf_to_svg d₂ = .ok svg₂) :
    (upload_dxf readDxf dxf_to_svg f₂
        (upload_dxf readDxf dxf_to_svg f₁ st).2).2.current_doc = some d₂
    ∧ (upload_dxf readDxf dxf_to_svg f₂
        (upload_dxf readDxf dxf_to_svg f₁ st).2).2.current_filename = f₂.filename
    ∧ (upload_dxf readDxf dxf_to_svg f₁ st).1
        = .ok { success := true, filename := f₁.filename, svg := svg₁,
                layers := get_layers_info d₁.content }
    ∧ (upload_dxf readDxf dxf_to_svg f₂
        (upload_dxf readDxf dxf_to_svg f₁ st).2).1
        = .ok { success := true, filename := f₂.filename, svg := svg₂,
                layers := get_layers_info d₂.content } := by
  refine ⟨?_, ?_, ?_, ?_⟩ <;>
    simp [upload_dxf, hn₁, hn₂, hr₁, hr₂, hv₁, hv₂]

/-- Claim C7 witness: two concrete uploads in sequence. -/
theorem c7_concurrent_upload_overwrite_witness :
    (upload_dxf wReadDxf wRender { filename := "b.dxf", content := "b" }
        (upload_dxf wReadDxf wRender { filename := "a.dxf", content := "a" }
          initial_state).2).2.current_doc = some wDoc
    ∧ (upload_dxf wReadDxf wRender { filename := "b.dxf", content := "b" }
        (upload_dxf wReadDxf wRender { filename := "a.dxf", content := "a" }
          initial_state).2).2.current_filename = "b.dxf"
    ∧ (upload_dxf wReadDxf wRender { filename := "a.dxf", content := "a" }
        initial_state).1
        = .ok { success := true, filename := "a.dxf", svg := "<svg></svg>",
                layers := get_layers_info wDoc.content }
    ∧ (upload_dxf wReadDxf wRender { filename := "b.dxf", content := "b" }
        (upload_dxf wReadDxf wRender { filename := "a.dxf", content := "a" }
          initial_state).2).1
        = .ok { success := true, filename := "b.dxf", svg := "<svg></svg>",
                layers := get_layers_info wDoc.content } :=
  c7_concurrent_upload_overwrite wReadDxf wRender
    { filename := "a.dxf", content := "a" } { filename := "b.dxf", content := "b" }
    initial_state wDoc wDoc "<svg></svg>" "<svg></svg>"
    (by decide) (by decide) rfl rfl rfl rfl

/-! ### Frame helper lemmas -/

theorem get_svg_state_id (v : Doc → Except String String) (st : ServerState) :
    (get_svg v st).2 = st := by
  cases hd : st.current_doc with
  | none => simp [get_svg, hd]
  | some d =>
    cases hv : v d with
    | error e => simp [get_svg, hd, hv]
    | ok s => simp [get_svg, hd, hv]

theorem get_layers_state_id (st : ServerState) : (get_layers st).2 = st := by
  cases hd : st.current_doc with
  | none => simp [get_layers, hd]
  | some d => simp [get_layers, hd]

theorem chat_preserves_handle (llm : List LayerInfo → String → String)
    (execPy : ExecFn) (tb m : String) (st : ServerState) (d : Doc)
    (hdoc : st.current_doc = some d) :
    ((chat llm execPy tb m st).2.current_doc).map Doc.id = some d.id
    ∧ (chat llm execPy tb m st).2.current_filename = st.current_filename
    ∧ (chat llm execPy tb m st).2.disk = st.disk := by
  rcases hg : generate_ezdxf_code llm m (get_layers_info d.content) with ⟨ex, co⟩
  by_cases hco : co = ""
  · simp [chat, hdoc, hg, hco]
  · cases hex : execute_ezdxf_code execPy tb co d with
    | error p =>
      rcases p with ⟨emsg, post⟩
      simp [chat, hdoc, hg, hco, hex]
    | ok p =>
      rcases p with ⟨res, post⟩
      simp [chat, hdoc, hg, hco, hex]

theorem upload_disk_indep (readDxf : String → Except String Doc)
    (render : Doc → Except String String) (f : FileUpload) (st : ServerState)
    (dk₁ dk₂ : List (String × String)) :
    memPart (upload_dxf readDxf render f { st with disk := dk₁ }).2
      = memPart (upload_dxf readDxf render f { st with disk := dk₂ }).2
    ∧ (upload_dxf readDxf render f { st with disk := dk₁ }).1
      = (upload_dxf readDxf render f { st with disk := dk₂ }).1 := by
  cases hn : isDxfName f.filename with
  | false => simp [upload_dxf, hn, memPart]
  | true =>
    cases hr : readDxf f.content with
    | error e => simp [upload_dxf, hn, hr, memPart]
    | ok d =>
      cases hv : render d with
      | error e => simp [upload_dxf, hn, hr, hv, memPart]
      | ok svg => simp [upload_dxf, hn, hr, hv, memPart]

theorem chat_disk_indep (llm : List LayerInfo → String → String)
    (execPy : ExecFn) (tb m : String) (st : ServerState)
    (dk₁ dk₂ : List (String × String)) :
    memPart (chat llm execPy tb m { st with disk := dk₁ }).2
      = memPart (chat llm execPy tb m { st with disk := dk₂ }).2
    ∧ (chat llm execPy tb m { st with disk := dk₁ }).1
      = (chat llm execPy tb m { st with disk := dk₂ }).1 := by
  cases hd : st.current_doc with
  | none => simp [chat, hd, memPart]
  | some d =>
    rcases hg : generate_ezdxf_code llm m (get_layers_info d.content) with ⟨ex, co⟩
    by_cases hco : co = ""
    · simp [chat, hd, hg, hco, memPart]
    · cases hex : execute_ezdxf_code execPy tb co d with
      | error p =>
        rcases p with ⟨emsg, post⟩
        simp [chat, hd, hg, hco, hex, memPart]
      | ok p =>
        rcases p with ⟨res, post⟩
        simp [chat, hd, hg, hco, hex, memPart]

theorem get_svg_disk_indep (v : Doc → Except String String) (st : ServerState)
    (dk₁ dk₂ : List (String × String)) :
    (get_svg v { st with disk := dk₁ }).1 = (get_svg v { st with disk := dk₂ }).1 := by
  cases hd : st.current_doc with
  | none => simp [get_svg, hd]
  | some d =>
    cases hv : v d with
    | error e => simp [get_svg, hd, hv]
    | ok s => simp [get_svg, hd, hv]

theorem get_layers_disk_indep (st : ServerState)
    (dk₁ dk₂ : List (String × String)) :
    (get_layers { st with disk := dk₁ }).1 = (get_layers { st with disk := dk₂ }).1 := by
  cases hd : st.current_doc with
  | none => simp [get_layers, hd]
  | some d => simp [get_layers, hd]

theorem export_dxf_disk_indep (saveDxf : Doc → String) (st : ServerState)
    (dk₁ dk₂ : List (String × String)) :
    memPart (export_dxf saveDxf { st with disk := dk₁ }).2
      = memPart (export_dxf saveDxf { st with disk := dk₂ }).2
    ∧ (export_dxf saveDxf { st with disk := dk₁ }).1
      = (export_dxf saveDxf { st with disk := dk₂ }).1 := by
  cases hd : st.current_doc with
  | none => simp [export_dxf, hd, memPart]
  | some d => simp [export_dxf, hd, memPart]

theorem export_pdf_disk_indep (rcs : Doc → String) (s2r : String → Option String)
    (rp : String → String) (st : ServerState)
    (dk₁ dk₂ : List (String × String)) :
    memPart (export_pdf rcs s2r rp { st with disk := dk₁ }).2
      = memPart (export_pdf rcs s2r rp { st with disk := dk₂ }).2
    ∧ (export_pdf rcs s2r rp { st with disk := dk₁ }).1
      = (export_pdf rcs s2r rp { st with disk := dk₂ }).1 := by
  cases hd : st.current_doc with
  | none => simp [export_pdf, hd, memPart]
  | some d =>
    cases hs : s2r (rcs d) with
    | none => simp [export_pdf, hd, hs, memPart]
    | some drawing => simp [export_pdf, hd, hs, memPart]

/-- Claim C3: only `POST /api/upload` assigns the document handle (storing
the newly loaded document and its filename); `POST /api/chat` can mutate the
loaded document in place but never reassigns the handle (the handle identity
and the stored filename are preserved, and chat touches no files);
`GET /api/svg` and `GET /api/layers` leave the state entirely unchanged; and
the document lives only in process memory: the memory state and response of
every operation are independent of what is stored in the temporary
directory. -/
theorem c3_document_lifecycle_frame
    (readDxf : String → Except String Doc) (dxf_to_svg : Doc → Except String String)
    (llm : List LayerInfo → String → String) (execPy : ExecFn)
    (saveDxf : Doc → String) (rcs : Doc → String) (s2r : String → Option String)
    (rp : String → String) (tb m : String) (f : FileUpload) (st : ServerState)
    (d d₂ : Doc)
    (hdoc : st.current_doc = some d)
    (hname : isDxfName f.filename = true)
    (hread : readDxf f.content = .ok d₂) :
    (upload_dxf readDxf dxf_to_svg f st).2.current_doc = some d₂
    ∧ (upload_dxf readDxf dxf_to_svg f st).2.current_filename = f.filename
    ∧ ((chat llm execPy tb m st).2.current_doc).map Doc.id = some d.id
    ∧ (chat llm execPy tb m st).2.current_filename = st.current_filename
    ∧ (chat llm execPy tb m st).2.disk = st.disk
    ∧ (get_svg dxf_to_svg st).2 = st
    ∧ (get_layers st).2 = st
    ∧ (∀ dk₁ dk₂ : List (String × String),
        memPart (upload_dxf readDxf dxf_to_svg f { st with disk := dk₁ }).2
          = memPart (upload_dxf readDxf dxf_to_svg f { st with disk := dk₂ }).2
        ∧ (upload_dxf readDxf dxf_to_svg f { st with disk := dk₁ }).1
          = (upload_dxf readDxf dxf_to_svg f { st with disk := dk₂ }).1
        ∧ memPart (chat llm execPy tb m { st with disk := dk₁ }).2
          = memPart (chat llm execPy tb m { st with disk := dk₂ }).2
        ∧ (chat llm execPy tb m { st with disk := dk₁ }).1
          = (chat llm execPy tb m { st with disk := dk₂ }).1
        ∧ (get_svg dxf_to_svg { st with disk := dk₁ }).1
          = (get_svg dxf_to_svg { st with disk := dk₂ }).1
        ∧ (get_layers { st with disk := dk₁ }).1
          = (get_layers { st with disk := dk₂ }).1
        ∧ memPart (export_dxf saveDxf { st with disk := dk₁ }).2
          = memPart (export_dxf saveDxf { st with disk := dk₂ }).2
        ∧ (export_dxf saveDxf { st with disk := dk₁ }).1
          = (export_dxf saveDxf { st with disk := dk₂ }).1
        ∧ memPart (export_pdf rcs s2r rp { st with disk := dk₁ }).2
          = memPart (export_pdf rcs s2r rp { st with disk := dk₂ }).2
        ∧ (export_pdf rcs s2r rp { st with disk := dk₁ }).1
          = (export_pdf rcs s2r rp { st with disk := dk₂ }).1) := by
  have hupDoc : (upload_dxf readDxf dxf_to_svg f st).2.current_doc = some d₂
      ∧ (upload_dxf readDxf dxf_to_svg f st).2.current_filename = f.filename := by
    cases hv : dxf_to_svg d₂ with
    | error e =>
      constructor <;> simp [upload_dxf, hname, hread, hv]
    | ok svg =>
      constructor <;> simp [upload_dxf, hname, hread, hv]
  obtain ⟨hch1, hch2, hch3⟩ := chat_preserves_handle llm execPy tb m st d hdoc
  refine ⟨hupDoc.1, hupDoc.2, hch1, hch2, hch3,
    get_svg_state_id dxf_to_svg st, get_layers_state_id st, ?_⟩
  intro dk₁ dk₂
  obtain ⟨hu1, hu2⟩ := upload_disk_indep readDxf dxf_to_svg f st dk₁ dk₂
  obtain ⟨hc1, hc2⟩ := chat_disk_indep llm execPy tb m st dk₁ dk₂
  obtain ⟨he1, he2⟩ := export_dxf_disk_indep saveDxf st dk₁ dk₂
  obtain ⟨hp1, hp2⟩ := export_pdf_disk_indep rcs s2r rp st dk₁ dk₂
  exact ⟨hu1, hu2, hc1, hc2, get_svg_disk_indep dxf_to_svg st dk₁ dk₂,
    get_layers_disk_indep st dk₁ dk₂, he1, he2, hp1, hp2⟩

/-- Claim C3 witness at the sample state and a concrete upload. -/
theorem c3_document_lifecycle_frame_witness :
    (upload_dxf wReadDxf wRender { filename := "new.dxf", content := "n" } wState).2.current_doc
      = some wDoc
    ∧ (upload_dxf wReadDxf wRender { filename := "new.dxf", content := "n" } wState).2.current_filename
      = "new.dxf"
    ∧ ((chat wLlm wExecOk "" "remove everything" wState).2.current_doc).map Doc.id = some wDoc.id
    ∧ (chat wLlm wExecOk "" "remove everything" wState).2.current_filename = wState.current_filename
    ∧ (chat wLlm wExecOk "" "remove everything" wState).2.disk = wState.disk
    ∧ (get_svg wRender wState).2 = wState
    ∧ (get_layers wState).2 = wState
    ∧ (∀ dk₁ dk₂ : List (String × String),
        memPart (upload_dxf wReadDxf wRender { filename := "new.dxf", content := "n" } { wState with disk := dk₁ }).2
          = memPart (upload_dxf wReadDxf wRender { filename := "new.dxf", content := "n" } { wState with disk := dk₂ }).2
        ∧ (upload_dxf wReadDxf wRender { filename := "new.dxf", content := "n" } { wState with disk := dk₁ }).1
          = (upload_dxf wReadDxf wRender { filename := "new.dxf", content := "n" } { wState with disk := dk₂ }).1
        ∧ memPart (chat wLlm wExecOk "" "remove everything" { wState with disk := dk₁ }).2
          = memPart (chat wLlm wExecOk "" "remove everything" { wState with disk := dk₂ }).2
        ∧ (chat wLlm wExecOk "" "remove everything" { wState with disk := dk₁ }).1
          = (chat wLlm wExecOk "" "remove everything" { wState with disk := dk₂ }).1
        ∧ (get_svg wRender { wState with disk := dk₁ }).1
          = (get_svg wRender { wState with disk := dk₂ }).1
        ∧ (get_layers { wState with disk := dk₁ }).1
          = (get_layers { wState with disk := dk₂ }).1
        ∧ memPart (export_dxf (fun _ => "") { wState with disk := dk₁ }).2
          = memPart (export_dxf (fun _ => "") { wState with disk := dk₂ }).2
        ∧ (export_dxf (fun _ => "") { wState with disk := dk₁ }).1
          = (export_dxf (fun _ => "") { wState with disk := dk₂ }).1
        ∧ memPart (export_pdf (fun _ => "") (fun _ => none) (fun _ => "") { wState with disk := dk₁ }).2
          = memPart (export_pdf (fun _ => "") (fun _ => none) (fun _ => "") { wState with disk := dk₂ }).2
        ∧ (export_pdf (fun _ => "") (fun _ => none) (fun _ => "") { wState with disk := dk₁ }).1
          = (export_pdf (fun _ => "") (fun _ => none) (fun _ => "") { wState with disk := dk₂ }).1) :=
  c3_document_lifecycle_frame wReadDxf wRender wLlm wExecOk (fun _ => "")
    (fun _ => "") (fun _ => none) (fun _ => "") "" "remove everything"
    { filename := "new.dxf", content := "n" } wState wDoc wDoc rfl (by decide) rfl

/-- Claim C1: `execute_ezdxf_code` hands the code string to `exec` with a
globals dictionary binding exactly `doc` and `ezdxf`, for every code string
and document, with no validation or constraint on the code; when `exec`
raises, it raises a `RuntimeError` whose message contains the original error
message, and the `POST /api/chat` handler catches that error and answers with
a `ChatResponse` carrying `executed = false` and `svg_updated = false`
instead of a server error. -/
theorem c1_exec_unsandboxed_and_chat_catches (execPy : ExecFn) (tb : String)
    (llm : List LayerInfo → String → String) (st : ServerState) (d : Doc)
    (m e : String) (post : DocContent) (explanation code : String)
    (hdoc : st.current_doc = some d)
    (hgen : generate_ezdxf_code llm m (get_layers_info d.content) = (explanation, code))
    (hcode : code ≠ "")
    (hexec : execPy code (exec_globals d) = (some e, post)) :
    exec_globals d = [("doc", PyVal.pyDoc d), ("ezdxf", PyVal.pyModule "ezdxf")]
    ∧ execute_ezdxf_code execPy tb code d
        = .error ("Code execution failed: " ++ e ++ "\n" ++ tb, post)
    ∧ e.data <:+: ("Code execution failed: " ++ e ++ "\n" ++ tb).data
    ∧ chat llm execPy tb m st
        = (.ok { response := "Error executing code: "
                   ++ ("Code execution failed: " ++ e ++ "\n" ++ tb),
                 code := code, executed := false,
                 result := "Code execution failed: " ++ e ++ "\n" ++ tb,
                 svg_updated := false },
           { st with current_doc := some { d with content := post } }) := by
  refine ⟨rfl, ?_, ?_, ?_⟩
  · simp [execute_ezdxf_code, hexec]
  · refine ⟨"Code execution failed: ".data, ("\n" ++ tb).data, ?_⟩
    simp [String.data_append]
  · simp [chat, hdoc, hgen, hcode, execute_ezdxf_code, hexec]

/-- Claim C1 witness: a concrete raising execution through the chat
endpoint. -/
theorem c1_exec_unsandboxed_and_chat_catches_witness :
    exec_globals wDoc = [("doc", PyVal.pyDoc wDoc), ("ezdxf", PyVal.pyModule "ezdxf")]
    ∧ execute_ezdxf_code wExecRaise "Traceback" wCode wDoc
        = .error ("Code execution failed: " ++ "division by zero" ++ "\n" ++ "Traceback", wContent)
    ∧ "division by zero".data
        <:+: ("Code execution failed: " ++ "division by zero" ++ "\n" ++ "Traceback").data
    ∧ chat wLlm wExecRaise "Traceback" "remove everything" wState
        = (.ok { response := "Error executing code: "
                   ++ ("Code execution failed: " ++ "division by zero" ++ "\n" ++ "Traceback"),
                 code := wCode, executed := false,
                 result := "Code execution failed: " ++ "division by zero" ++ "\n" ++ "Traceback",
                 svg_updated := false },
           { wState with current_doc := some { wDoc with content := wContent } }) :=
  c1_exec_unsandboxed_and_chat_catches wExecRaise "Traceback" wLlm wState wDoc
    "remove everything" "division by zero" wContent "Remove all entities." wCode
    rfl (by decide) (by decide) rfl

/-- Right-nested version of `pysplit_boundary`. -/
theorem pysplit_boundary_r (sep X R : List Char) (hne : sep ≠ [])
    (hc : cleanB sep X = true) :
    pysplit sep (X ++ (sep ++ R)) = X :: pysplit sep R := by
  rw [← List.append_assoc]
  exact pysplit_boundary sep X R hne hc

theorem cleanA_of_cleanB : ∀ X sep : List Char,
    cleanB sep X = true → cleanA sep X = true := by
  intro X
  induction X with
  | nil => intro sep _; rfl
  | cons c rest ih =>
    intro sep hc
    simp only [cleanB, Bool.and_eq_true, Bool.not_eq_eq_eq_not, Bool.not_true] at hc
    simp only [cleanA, Bool.and_eq_true, Bool.not_eq_eq_eq_not, Bool.not_true]
    refine ⟨?_, ih sep hc.2⟩
    cases hp : isPre sep (c :: rest) with
    | false => rfl
    | true =>
      have := isPre_append_right sep (c :: rest) sep hp
      rw [hc.1] at this
      exact absurd this (by simp)

/-- Claim C2: on a response of the shape
`X ++ "CODE:" ++ B ++ "markdown python fence" ++ C ++ "closing fence" ++ D`
in which `X` contains `"EXPLANATION:"`, `"CODE:"` occurs only at the marked
place, the python fence opens the only python fence and `C` is fence-free,
`generate_ezdxf_code` parses the explanation as the text before `"CODE:"`
with `"EXPLANATION:"` removed and stripped, and the code as the stripped
fence content `C`; on a response with no `"EXPLANATION:"` marker the
explanation is the fixed string `"Executing requested changes."` and the code
comes from the first code fence when one exists — a python fence when the
response has one, else a bare fence — and is empty otherwise. -/
theorem c2_generate_code_parsing (X B C D : List Char)
    (hX : pyContains EM X = true)
    (h1 : cleanB CM X = true)
    (h2 : cleanA CM (B ++ PY ++ C ++ TK ++ D) = true)
    (h3 : cleanB PY B = true)
    (h5 : cleanA PY (C ++ TK ++ D) = true)
    (h4 : cleanB TK C = true) :
    parse_response (X ++ CM ++ B ++ PY ++ C ++ TK ++ D)
      = (pystrip (pyreplace EM [] X), pystrip C)
    ∧ (∀ E : List Char, pyContains EM E = false →
        (parse_response E).1 = "Executing requested changes.".data
        ∧ (pyContains TK E = false → (parse_response E).2 = []))
    ∧ (∀ P Q R : List Char,
        pyContains EM (P ++ PY ++ Q ++ TK ++ R) = false →
        cleanB PY P = true → cleanA PY (Q ++ TK ++ R) = true → cleanB TK Q = true →
        parse_response (P ++ PY ++ Q ++ TK ++ R)
          = ("Executing requested changes.".data, pystrip Q))
    ∧ (∀ P Q R : List Char,
        pyContains EM (P ++ TK ++ Q ++ TK ++ R) = false →
        pyContains PY (P ++ TK ++ Q ++ TK ++ R) = false →
        cleanB TK P = true → cleanB TK Q = true →
        parse_response (P ++ TK ++ Q ++ TK ++ R)
          = ("Executing requested changes.".data, pystrip Q)) := by
  refine ⟨?_, ?_, ?_, ?_⟩
  · simp only [List.append_assoc] at h2 h5 ⊢
    have hEMt : pyContains EM (X ++ (CM ++ (B ++ (PY ++ (C ++ (TK ++ D)))))) = true :=
      pyContains_append_left X _ EM hX
    have hparts : pysplit CM (X ++ (CM ++ (B ++ (PY ++ (C ++ (TK ++ D))))))
        = [X, B ++ (PY ++ (C ++ (TK ++ D)))] := by
      rw [pysplit_boundary_r CM X _ (by decide) h1, pysplit_clean _ _ h2]
    have hPYcp : pyContains PY (B ++ (PY ++ (C ++ (TK ++ D)))) = true :=
      pyContains_mid B PY _
    have hsPY : pysplit PY (B ++ (PY ++ (C ++ (TK ++ D)))) = [B, C ++ (TK ++ D)] := by
      rw [pysplit_boundary_r PY B _ (by decide) h3, pysplit_clean _ _ h5]
    have hsTK : pysplit TK (C ++ (TK ++ D)) = C :: pysplit TK D :=
      pysplit_boundary_r TK C D (by decide) h4
    simp [parse_response, hEMt, hparts, hPYcp, hsPY, hsTK]
  · intro E hE
    constructor
    · simp [parse_response, hE]
    · intro hTK
      have hPY : pyContains PY E = false := by
        cases hPYe : pyContains PY E with
        | false => rfl
        | true =>
          have : pyContains TK E = true := pyContains_of_isPre E TK PY (by decide) hPYe
          rw [hTK] at this
          exact absurd this (by simp)
      simp [parse_response, hE, hPY, hTK]
  · intro P Q R hEm h3' h5' h4'
    simp only [List.append_assoc] at hEm h5' ⊢
    have hPYt : pyContains PY (P ++ (PY ++ (Q ++ (TK ++ R)))) = true :=
      pyContains_mid P PY _
    have hsPY : pysplit PY (P ++ (PY ++ (Q ++ (TK ++ R)))) = [P, Q ++ (TK ++ R)] := by
      rw [pysplit_boundary_r PY P _ (by decide) h3', pysplit_clean _ _ h5']
    have hsTK : pysplit TK (Q ++ (TK ++ R)) = Q :: pysplit TK R :=
      pysplit_boundary_r TK Q R (by decide) h4'
    simp [parse_response, hEm, hPYt, hsPY, hsTK]
  · intro P Q R hEm hnoPY h3'' h4''
    simp only [List.append_assoc] at hEm hnoPY ⊢
    have hTKt : pyContains TK (P ++ (TK ++ (Q ++ (TK ++ R)))) = true :=
      pyContains_mid P TK _
    have hsTK1 : pysplit TK (P ++ (TK ++ (Q ++ (TK ++ R))))
        = P :: pysplit TK (Q ++ (TK ++ R)) :=
      pysplit_boundary_r TK P _ (by decide) h3''
    have hsTK2 : pysplit TK (Q ++ (TK ++ R)) = Q :: pysplit TK R :=
      pysplit_boundary_r TK Q R (by decide) h4''
    have hsQ : pysplit TK Q = [Q] :=
      pysplit_clean _ _ (cleanA_of_cleanB Q TK h4'')
    simp [parse_response, hEm, hnoPY, hTKt, hsTK1, hsTK2, hsQ]

/-- Claim C2 witness at a concrete well-formed response. -/
theorem c2_generate_code_parsing_witness :
    parse_response ("EXPLANATION: I will remove the arcs.\n".data
        ++ CM ++ "\n".data ++ PY ++ "\nmsp = doc.modelspace()\n".data
        ++ TK ++ "\nDone.".data)
      = (pystrip (pyreplace EM [] "EXPLANATION: I will remove the arcs.\n".data),
         pystrip "\nmsp = doc.modelspace()\n".data)
    ∧ (∀ E : List Char, pyContains EM E = false →
        (parse_response E).1 = "Executing requested changes.".data
        ∧ (pyContains TK E = false → (parse_response E).2 = []))
    ∧ (∀ P Q R : List Char,
        pyContains EM (P ++ PY ++ Q ++ TK ++ R) = false →
        cleanB PY P = true → cleanA PY (Q ++ TK ++ R) = true → cleanB TK Q = true →
        parse_response (P ++ PY ++ Q ++ TK ++ R)
          = ("Executing requested changes.".data, pystrip Q))
    ∧ (∀ P Q R : List Char,
        pyContains EM (P ++ TK ++ Q ++ TK ++ R) = false →
        pyContains PY (P ++ TK ++ Q ++ TK ++ R) = false →
        cleanB TK P = true → cleanB TK Q = true →
        parse_response (P ++ TK ++ Q ++ TK ++ R)
          = ("Executing requested changes.".data, pystrip Q)) :=
  c2_generate_code_parsing "EXPLANATION: I will remove the arcs.\n".data
    "\n".data "\nmsp = doc.modelspace()\n".data "\nDone.".data
    (by decide) (by decide) (by decide) (by decide) (by decide) (by decide)

end Haklander
